import Mathlib

/-!
Shallow embedding of the ER (Encode/Rebuild) coordinator core, src/src/er.c.

The three collaborators (redset codec, shuffile migration service, kvtree
serializer) and the MPI substrate are external to the repository; their
collective results appear here as oracle inputs (Bool fields of environment
structures), and the calls the core makes to them are recorded in traces of
events.  The two process-wide registries (schemes, sets) are kvtree maps in
the source; a kvtree is a keyed map (keys unique), deleted maps become NULL
pointers, and kvtree operations on NULL are no-ops, so a registry is an
`Option` of an association list here.
-/

/-! ## Constants from er.h / er.c -/

def ER_SUCCESS : Int := 0

def ER_FAILURE : Int := 1

def ER_DIRECTION_ENCODE : Int := 1

def ER_DIRECTION_REBUILD : Int := 2

def ER_DIRECTION_REMOVE : Int := 3

def ER_STATE_NULL : Nat := 0

def ER_STATE_CORRUPT : Nat := 1

def ER_STATE_ENCODED : Nat := 2

/-! ## State-file reconciliation (er_state_read, er.c lines 76-127)

Each world rank holds a local state value: the leader of a storage group has
the value read from its replica of `<path>.er` (defaulting to NULL when the
file is absent or unreadable), every other rank holds NULL.  `er_state_read`
is a function of the list of these local values, indexed by world rank. -/

/-- Per-rank eligibility from er.c lines 110-114: a rank offers its own rank
number when its local value is non-NULL, otherwise the world size `n`. -/
def er_valid_rank (n rank v : Nat) : Nat :=
  if v ≠ ER_STATE_NULL then rank else n

/-- The MPI_Allreduce MPI_MIN of `er_valid_rank` over ranks `r, r+1, ...`
holding the given local values (er.c lines 116-118). -/
def er_allreduce_min (n : Nat) : Nat → List Nat → Nat
  | _, [] => n
  | r, v :: rest => min (er_valid_rank n r v) (er_allreduce_min n (r + 1) rest)

/-- er_state_read: compute the lowest rank holding a non-NULL value; if one
exists, broadcast its value, otherwise every rank keeps NULL
(er.c lines 76-127). -/
def er_state_read (locals : List Nat) : Nat :=
  if er_allreduce_min locals.length 0 locals < locals.length then
    locals.getD (er_allreduce_min locals.length 0 locals) ER_STATE_NULL
  else ER_STATE_NULL

/-- Reconciliation as the spec words it: the value held by the lowest world
rank whose local value is non-NULL, and NULL when no rank holds one. -/
def er_state_read_spec : List Nat → Nat
  | [] => ER_STATE_NULL
  | v :: rest => if v ≠ ER_STATE_NULL then v else er_state_read_spec rest

/-! ## Dispatch pipelines (er_encode / er_rebuild / er_remove)

Each pipeline is a function from the collective results of the collaborator
calls it makes (oracle Bools) to its return code and the trace of state-file
accesses and collaborator calls it performs, in program order. -/

/-- One observable action of a pipeline: a state-file read or write, or a
call into the codec or shuffle collaborator. -/
inductive Event where
  | stateRead (s : Nat)
  | stateWrite (s : Nat)
  | redsetApply (files : List String)
  | filelistGet
  | shuffileCreate
  | shuffileMigrate
  | redsetRecover
  | shuffileRemove
  | redsetUnapply
  | unlinkStateFile
  deriving DecidableEq

/-- Collaborator calls that mutate on-disk data (the state-file write itself
and read-only queries are excluded). -/
def mutatesData : Event → Bool
  | .redsetApply _ => true
  | .shuffileCreate => true
  | .shuffileMigrate => true
  | .redsetRecover => true
  | .shuffileRemove => true
  | .redsetUnapply => true
  | .unlinkStateFile => true
  | _ => false

/-- True when no data-mutating event occurs before the first CORRUPT write
in the trace (in particular when the trace mutates nothing at all). -/
def corruptBeforeMutation : List Event → Bool
  | [] => true
  | e :: rest =>
    if e = Event.stateWrite ER_STATE_CORRUPT then true
    else if mutatesData e then false
    else corruptBeforeMutation rest

/-- The value of the last state-file write in a trace, if any: the on-disk
state left behind by the pipeline. -/
def lastStateWrite : List Event → Option Nat
  | [] => none
  | Event.stateWrite s :: rest =>
    match lastStateWrite rest with
    | some v => some v
    | none => some s
  | _ :: rest => lastStateWrite rest

/-- Collective results of the collaborator calls made by er_encode:
redset_apply (er.c line 384) and shuffile_create (line 409). -/
structure EncodeEnv where
  applyOk : Bool
  createOk : Bool
  deriving DecidableEq

/-- er_encode (er.c lines 362-424): write CORRUPT, apply redundancy, query
the redundancy file list, register the combined file list with shuffile,
and write ENCODED only when rc is still success.  Note that a failure of
redset_apply only sets rc; the filelist query and shuffile_create still
run. -/
def er_encode (env : EncodeEnv) (filenames : List String) : Int × List Event :=
  let rc1 : Int := if env.applyOk then ER_SUCCESS else ER_FAILURE
  let rc2 : Int := if env.createOk then rc1 else ER_FAILURE
  let base : List Event :=
    [Event.stateWrite ER_STATE_CORRUPT, Event.redsetApply filenames,
     Event.filelistGet, Event.shuffileCreate]
  if rc2 = ER_SUCCESS then (rc2, base ++ [Event.stateWrite ER_STATE_ENCODED])
  else (rc2, base)

/-- Inputs of er_rebuild: the reconciled state returned by er_state_read at
entry, and the collective results of shuffile_migrate and redset_recover.
The source discards shuffile_migrate's return value (er.c line 456). -/
structure RebuildEnv where
  readState : Nat
  migrateOk : Bool
  recoverOk : Bool
  deriving DecidableEq

/-- er_rebuild (er.c lines 426-473): read the state and refuse unless it is
ENCODED; then write CORRUPT, migrate files, recover, and write ENCODED only
when redset_recover succeeded (the migrate result is not consulted). -/
def er_rebuild (env : RebuildEnv) : Int × List Event :=
  if env.readState ≠ ER_STATE_ENCODED then
    (ER_FAILURE, [Event.stateRead env.readState])
  else
    let rc : Int := if env.recoverOk then ER_SUCCESS else ER_FAILURE
    let base : List Event :=
      [Event.stateRead env.readState, Event.stateWrite ER_STATE_CORRUPT,
       Event.shuffileMigrate, Event.redsetRecover]
    if rc = ER_SUCCESS then (rc, base ++ [Event.stateWrite ER_STATE_ENCODED])
    else (rc, base)

/-- Collective results of the collaborator calls made by er_remove; the
source discards every one of them (er.c lines 503-510). -/
structure RemoveEnv where
  removeOk : Bool
  recoverOk : Bool
  unapplyOk : Bool
  deriving DecidableEq

/-- er_remove (er.c lines 475-518): write CORRUPT, remove the shuffile
association, recover and unapply the redundancy data, and unlink the state
file; rc is never changed from ER_SUCCESS. -/
def er_remove (env : RemoveEnv) : Int × List Event :=
  (ER_SUCCESS,
   [Event.stateWrite ER_STATE_CORRUPT, Event.shuffileRemove,
    Event.redsetRecover, Event.redsetUnapply, Event.unlinkStateFile])

/-! ## Registries (schemes and sets) -/

/-- One record of the set registry: the fields ER_Create stores under a set
id (NAME, DIRECTION, SCHEME when encoding) plus the FILE hash as the list of
its keys.  kvtree_set_kv adds a key to a hash, so a path added twice is one
key; a fresh key is appended. -/
structure ERSetRec where
  name : String
  direction : Int
  scheme : Option Int
  files : List String
  deriving DecidableEq

/-- Lookup in an association list keyed by id (kvtree_get_kv_int). -/
def assocLookup : List (Int × ERSetRec) → Int → Option ERSetRec
  | [], _ => none
  | p :: rest, id => if p.1 = id then some p.2 else assocLookup rest id

/-- Remove the entry of an id (kvtree_unset_kv_int). -/
def assocRemove : List (Int × ERSetRec) → Int → List (Int × ERSetRec)
  | [], _ => []
  | p :: rest, id =>
    if p.1 = id then assocRemove rest id else p :: assocRemove rest id

/-- Replace the record stored under an existing id. -/
def assocUpdate : List (Int × ERSetRec) → Int → ERSetRec → List (Int × ERSetRec)
  | [], _, _ => []
  | p :: rest, id, sr =>
    if p.1 = id then (id, sr) :: assocUpdate rest id sr
    else p :: assocUpdate rest id sr

/-- Insert a record under an id: replace when present, append when fresh
(kvtree_set_kv_int on a keyed map). -/
def assocInsert (l : List (Int × ERSetRec)) (id : Int) (sr : ERSetRec) :
    List (Int × ERSetRec) :=
  match assocLookup l id with
  | some _ => assocUpdate l id sr
  | none => l ++ [(id, sr)]

/-- Remove an id from a list of scheme ids. -/
def intRemove : List Int → Int → List Int
  | [], _ => []
  | x :: rest, id => if x = id then intRemove rest id else x :: intRemove rest id

/-- The set registry: NULL (after kvtree_delete in ER_Finalize) or a keyed
map; kvtree operations on NULL are no-ops. -/
def setsLookup : Option (List (Int × ERSetRec)) → Int → Option ERSetRec
  | none, _ => none
  | some l, id => assocLookup l id

def setsInsert (m : Option (List (Int × ERSetRec))) (id : Int) (sr : ERSetRec) :
    Option (List (Int × ERSetRec)) :=
  match m with
  | none => none
  | some l => some (assocInsert l id sr)

def setsUpdate (m : Option (List (Int × ERSetRec))) (id : Int) (sr : ERSetRec) :
    Option (List (Int × ERSetRec)) :=
  match m with
  | none => none
  | some l => some (assocUpdate l id sr)

def setsRemove (m : Option (List (Int × ERSetRec))) (id : Int) :
    Option (List (Int × ERSetRec)) :=
  match m with
  | none => none
  | some l => some (assocRemove l id)

/-- The scheme registry holds an opaque redset descriptor per id; only the
set of live ids is observable here. -/
def schemeMem : Option (List Int) → Int → Bool
  | none, _ => false
  | some l, id => decide (id ∈ l)

def schemesInsert (m : Option (List Int)) (id : Int) : Option (List Int) :=
  match m with
  | none => none
  | some l => some (if id ∈ l then l else l ++ [id])

def schemesRemove (m : Option (List Int)) (id : Int) : Option (List Int) :=
  match m with
  | none => none
  | some l => some (intRemove l id)

/-- kvtree_size of a possibly NULL map. -/
def schemesSize : Option (List Int) → Nat
  | none => 0
  | some l => l.length

def setsSize : Option (List (Int × ERSetRec)) → Nat
  | none => 0
  | some l => l.length

/-- The process-wide mutable state of er.c: the two monotonic counters
(er.c lines 28-29) and the two registries (lines 31-32). -/
structure ERState where
  er_scheme_counter : Int
  er_set_counter : Int
  er_schemes : Option (List Int)
  er_sets : Option (List (Int × ERSetRec))
  deriving DecidableEq

/-- The state established by ER_Init (er.c lines 129-148): fresh empty maps,
counters at their static initial value 0. -/
def erInitState : ERState :=
  { er_scheme_counter := 0, er_set_counter := 0,
    er_schemes := some [], er_sets := some [] }

/-- ER_Init: allocate the maps and bring up both collaborators; ER_FAILURE
when either redset_init or shuffile_init fails. -/
def ER_Init (redsetOk shuffileOk : Bool) : Int × ERState :=
  (if redsetOk && shuffileOk then ER_SUCCESS else ER_FAILURE, erInitState)

/-- The redset copy types a scheme can map to (REDSET_COPY_*). -/
inductive RedsetCopyType where
  | copySingle
  | copyPartner
  | copyXor
  deriving DecidableEq

/-- The encoding-type selection of ER_Create_Scheme (er.c lines 196-210):
SINGLE when erasure_blocks = 0, else PARTNER when the block counts match,
else XOR when erasure_blocks = 1, else unsupported. -/
def er_encoding_type (encoding_blocks erasure_blocks : Int) : Option RedsetCopyType :=
  if erasure_blocks = 0 then some RedsetCopyType.copySingle
  else if encoding_blocks = erasure_blocks then some RedsetCopyType.copyPartner
  else if erasure_blocks = 1 then some RedsetCopyType.copyXor
  else none

/-- ER_Create_Scheme (er.c lines 187-237): reject encoding_blocks < 1 and
unsupported pairs with an early `return ER_FAILURE`; otherwise run
redset_create (oracle `createOk`); on its success bump the counter and
register the id, on its failure return -1. -/
def ER_Create_Scheme (createOk : Bool) (encoding_blocks erasure_blocks : Int)
    (s : ERState) : Int × ERState :=
  if encoding_blocks < 1 then (ER_FAILURE, s)
  else
    match er_encoding_type encoding_blocks erasure_blocks with
    | none => (ER_FAILURE, s)
    | some _ =>
      if createOk then
        ((s.er_scheme_counter + 1 : Int),
         { s with
            er_scheme_counter := s.er_scheme_counter + 1,
            er_schemes := schemesInsert s.er_schemes (s.er_scheme_counter + 1) })
      else (-1, s)

/-- ER_Free_Scheme (er.c lines 239-271): fail when the id is not in the
registry; otherwise drop it, with rc from redset_delete (oracle). -/
def ER_Free_Scheme (deleteOk : Bool) (scheme_id : Int) (s : ERState) :
    Int × ERState :=
  if schemeMem s.er_schemes scheme_id then
    ((if deleteOk then ER_SUCCESS else ER_FAILURE),
     { s with er_schemes := schemesRemove s.er_schemes scheme_id })
  else (ER_FAILURE, s)

/-- ER_Create (er.c lines 274-335): reject a NULL or empty name and an
illegal direction with `return ER_FAILURE`; otherwise bump the set counter
and record the set; for ENCODE additionally require the scheme id to be
registered, deleting the fresh record and returning -1 when it is not. -/
def ER_Create (name : Option String) (direction : Int) (scheme_id : Int)
    (s : ERState) : Int × ERState :=
  match name with
  | none => (ER_FAILURE, s)
  | some nm =>
    if nm = "" then (ER_FAILURE, s)
    else if direction ≠ ER_DIRECTION_ENCODE ∧ direction ≠ ER_DIRECTION_REBUILD ∧
        direction ≠ ER_DIRECTION_REMOVE then (ER_FAILURE, s)
    else
      let sr : ERSetRec :=
        { name := nm, direction := direction,
          scheme := if direction = ER_DIRECTION_ENCODE then some scheme_id else none,
          files := [] }
      let s1 : ERState :=
        { s with
           er_set_counter := s.er_set_counter + 1,
           er_sets := setsInsert s.er_sets (s.er_set_counter + 1) sr }
      if direction = ER_DIRECTION_ENCODE ∧
          schemeMem s1.er_schemes scheme_id = false then
        (-1, { s1 with er_sets := setsRemove s1.er_sets (s.er_set_counter + 1) })
      else ((s.er_set_counter + 1 : Int), s1)

/-- The FILE hash update of ER_Add: kvtree_set_kv adds the path as a key of
the set's FILE hash, so an already-present path leaves the hash unchanged
and a fresh path is appended. -/
def addFileRec (sr : ERSetRec) (f : String) : ERSetRec :=
  { sr with files := if f ∈ sr.files then sr.files else sr.files ++ [f] }

/-- ER_Add (er.c lines 338-360): reject a NULL or empty path; fail when the
set id is unknown; otherwise add the path to the set's FILE hash. -/
def ER_Add (set_id : Int) (file : Option String) (s : ERState) : Int × ERState :=
  match file with
  | none => (ER_FAILURE, s)
  | some f =>
    if f = "" then (ER_FAILURE, s)
    else
      match setsLookup s.er_sets set_id with
      | some sr =>
        (ER_SUCCESS, { s with er_sets := setsUpdate s.er_sets set_id (addFileRec sr f) })
      | none => (ER_FAILURE, s)

/-- ER_Free (er.c lines 632-648): free the record if present, unset the id
unconditionally, and always return ER_SUCCESS. -/
def ER_Free (set_id : Int) (s : ERState) : Int × ERState :=
  (ER_SUCCESS, { s with er_sets := setsRemove s.er_sets set_id })

/-- The collaborator shutdown calls ER_Finalize makes. -/
inductive FinalizeCall where
  | shuffileFinalizeCall
  | redsetFinalizeCall
  deriving DecidableEq

/-- Everything ER_Finalize produces: its return code, the state it leaves
behind, the diagnostics it emitted via er_err, and the collaborator
shutdown calls it made. -/
structure FinalizeResult where
  rc : Int
  state : ERState
  diags : List String
  calls : List FinalizeCall
  deriving DecidableEq

/-- ER_Finalize (er.c lines 150-185): complain (rc = ER_FAILURE plus an
er_err diagnostic) when either registry still has entries, then delete both
maps (leaving the NULL pointers), then shut down shuffile and redset
(oracles), folding their failures into rc. -/
def ER_Finalize (shuffileOk redsetOk : Bool) (s : ERState) : FinalizeResult :=
  let rc1 : Int := if 0 < schemesSize s.er_schemes then ER_FAILURE else ER_SUCCESS
  let d1 : List String :=
    if 0 < schemesSize s.er_schemes then ["ER_Finalize called before schemes freed"]
    else []
  let rc2 : Int := if 0 < setsSize s.er_sets then ER_FAILURE else rc1
  let d2 : List String :=
    if 0 < setsSize s.er_sets then d1 ++ ["ER_Finalize called before sets freed"]
    else d1
  let rc3 : Int := if shuffileOk then rc2 else ER_FAILURE
  let rc4 : Int := if redsetOk then rc3 else ER_FAILURE
  { rc := rc4,
    state := { s with er_schemes := none, er_sets := none },
    diags := d2,
    calls := [FinalizeCall.shuffileFinalizeCall, FinalizeCall.redsetFinalizeCall] }

/-- The collaborator oracles a Dispatch may consult, one group per
pipeline. -/
structure DispatchEnv where
  enc : EncodeEnv
  reb : RebuildEnv
  rem : RemoveEnv
  deriving DecidableEq

/-- ER_Dispatch (er.c lines 521-616): look up the set, fail when unknown;
for ENCODE gather the set's file list and scheme and run er_encode (only
when the scheme is registered); for REBUILD run er_rebuild; otherwise
(REMOVE) run er_remove. -/
def ER_Dispatch (env : DispatchEnv) (s : ERState) (set_id : Int) :
    Int × List Event :=
  match setsLookup s.er_sets set_id with
  | none => (ER_FAILURE, [])
  | some sr =>
    if sr.direction = ER_DIRECTION_ENCODE then
      match sr.scheme with
      | some scheme_id =>
        if schemeMem s.er_schemes scheme_id then er_encode env.enc sr.files
        else (ER_FAILURE, [])
      | none => (ER_FAILURE, [])
    else if sr.direction = ER_DIRECTION_REBUILD then er_rebuild env.reb
    else er_remove env.rem

/-! ## Operation sequences (for the id-monotonicity claim) -/

/-- One registry-level API call together with the collective results of the
collaborator calls it makes. -/
inductive EROp where
  | createScheme (createOk : Bool) (encoding_blocks erasure_blocks : Int)
  | freeScheme (deleteOk : Bool) (id : Int)
  | createSet (name : Option String) (direction scheme_id : Int)
  | addFile (id : Int) (file : Option String)
  | freeSet (id : Int)
  | finalize (shuffileOk redsetOk : Bool)

/-- Execute one API call on the process state. -/
def erStep (s : ERState) : EROp → Int × ERState
  | EROp.createScheme ok d e => ER_Create_Scheme ok d e s
  | EROp.freeScheme ok id => ER_Free_Scheme ok id s
  | EROp.createSet nm dir sid => ER_Create nm dir sid s
  | EROp.addFile id f => ER_Add id f s
  | EROp.freeSet id => ER_Free id s
  | EROp.finalize a b => ((ER_Finalize a b s).rc, (ER_Finalize a b s).state)

/-- A scheme-create call succeeds exactly when the parameters are accepted
and redset_create reports success. -/
def schemeCreateSucceeds (ok : Bool) (encoding_blocks erasure_blocks : Int) : Bool :=
  ok && decide (1 ≤ encoding_blocks) &&
    decide (erasure_blocks = 0 ∨ encoding_blocks = erasure_blocks ∨ erasure_blocks = 1)

/-- A set-create call succeeds exactly when name and direction are accepted
and, for ENCODE, the scheme id is registered. -/
def setCreateSucceeds (s : ERState) (name : Option String)
    (direction scheme_id : Int) : Bool :=
  match name with
  | none => false
  | some nm =>
    decide (nm ≠ "") &&
    (decide (direction = ER_DIRECTION_ENCODE) ||
     decide (direction = ER_DIRECTION_REBUILD) ||
     decide (direction = ER_DIRECTION_REMOVE)) &&
    (decide (direction ≠ ER_DIRECTION_ENCODE) || schemeMem s.er_schemes scheme_id)

/-- The scheme ids returned by the successful ER_Create_Scheme calls of an
operation sequence, in call order. -/
def successfulSchemeIds (s : ERState) : List EROp → List Int
  | [] => []
  | op :: rest =>
    match op with
    | EROp.createScheme ok d e =>
      if schemeCreateSucceeds ok d e then
        (erStep s op).1 :: successfulSchemeIds (erStep s op).2 rest
      else successfulSchemeIds (erStep s op).2 rest
    | _ => successfulSchemeIds (erStep s op).2 rest

/-- The set ids returned by the successful ER_Create calls of an operation
sequence, in call order. -/
def successfulSetIds (s : ERState) : List EROp → List Int
  | [] => []
  | op :: rest =>
    match op with
    | EROp.createSet nm dir sid =>
      if setCreateSucceeds s nm dir sid then
        (erStep s op).1 :: successfulSetIds (erStep s op).2 rest
      else successfulSetIds (erStep s op).2 rest
    | _ => successfulSetIds (erStep s op).2 rest

/-! ## Helper lemmas -/

theorem er_allreduce_min_le (n : Nat) (locals : List Nat) :
    ∀ r, er_allreduce_min n r locals ≤ n := by
  induction locals with
  | nil => intro r; simp [er_allreduce_min]
  | cons v rest ih =>
    intro r
    simp only [er_allreduce_min]
    exact le_trans (min_le_right _ _) (ih (r + 1))

theorem er_allreduce_min_ge (n : Nat) (locals : List Nat) :
    ∀ r, min n r ≤ er_allreduce_min n r locals := by
  induction locals with
  | nil => intro r; simp [er_allreduce_min]
  | cons v rest ih =>
    intro r
    simp only [er_allreduce_min]
    have h1 : min n r ≤ er_valid_rank n r v := by
      unfold er_valid_rank; split <;> omega
    have h2 := ih (r + 1)
    omega

theorem er_allreduce_min_char (n : Nat) (locals : List Nat) :
    ∀ r, r + locals.length ≤ n →
      (er_allreduce_min n r locals = n ∧ er_state_read_spec locals = ER_STATE_NULL)
      ∨ (∃ i, i < locals.length ∧ er_allreduce_min n r locals = r + i ∧
          locals.getD i ER_STATE_NULL = er_state_read_spec locals ∧
          er_state_read_spec locals ≠ ER_STATE_NULL) := by
  induction locals with
  | nil => intro r h; left; simp [er_allreduce_min, er_state_read_spec]
  | cons v rest ih =>
    intro r h
    simp only [List.length_cons] at h
    by_cases hv : v = ER_STATE_NULL
    · have hrec := ih (r + 1) (by omega)
      have hle := er_allreduce_min_le n rest (r + 1)
      rcases hrec with ⟨h1, h2⟩ | ⟨i, hi, heq, hget, hne⟩
      · left
        constructor
        · simp [er_allreduce_min, er_valid_rank, hv, h1]
        · simp [er_state_read_spec, hv, h2]
      · right
        refine ⟨i + 1, by simpa using Nat.succ_lt_succ hi, ?_, ?_, ?_⟩
        · simp only [er_allreduce_min, er_valid_rank, hv, ne_eq, not_true_eq_false,
            if_false, ite_false]
          omega
        · simpa [List.getD, er_state_read_spec, hv] using hget
        · simpa [er_state_read_spec, hv] using hne
    · right
      have hge := er_allreduce_min_ge n rest (r + 1)
      refine ⟨0, by simp, ?_, ?_, ?_⟩
      · simp only [er_allreduce_min, er_valid_rank, hv, ne_eq, not_false_eq_true,
          if_true, ite_true]
        omega
      · simp [List.getD, er_state_read_spec, hv]
      · simp [er_state_read_spec, hv]

theorem assocLookup_remove (l : List (Int × ERSetRec)) (id : Int) :
    assocLookup (assocRemove l id) id = none := by
  induction l with
  | nil => rfl
  | cons p rest ih =>
    by_cases hp : p.1 = id
    · simp [assocRemove, hp, ih]
    · simp [assocRemove, assocLookup, hp, ih]

theorem assocLookup_update (l : List (Int × ERSetRec)) (id : Int) (sr0 sr : ERSetRec)
    (h : assocLookup l id = some sr0) :
    assocLookup (assocUpdate l id sr) id = some sr := by
  induction l with
  | nil => simp [assocLookup] at h
  | cons p rest ih =>
    by_cases hp : p.1 = id
    · simp [assocUpdate, assocLookup, hp]
    · simp only [assocLookup, hp, if_false, ite_false] at h
      simp [assocUpdate, assocLookup, hp, ih h]

theorem setsLookup_remove (m : Option (List (Int × ERSetRec))) (id : Int) :
    setsLookup (setsRemove m id) id = none := by
  cases m with
  | none => rfl
  | some l => simpa [setsRemove, setsLookup] using assocLookup_remove l id

theorem setsLookup_update (m : Option (List (Int × ERSetRec))) (id : Int)
    (sr0 sr : ERSetRec) (h : setsLookup m id = some sr0) :
    setsLookup (setsUpdate m id sr) id = some sr := by
  cases m with
  | none => simp [setsLookup] at h
  | some l => simpa [setsUpdate, setsLookup] using assocLookup_update l id sr0 sr h

/-! ## Claim theorems -/

/-- C1 (amended): every pipeline writes CORRUPT before invoking any
collaborator that mutates on-disk data; ENCODE writes ENCODED exactly when
both checked collaborator steps (redset_apply, shuffile_create) succeed;
REBUILD writes ENCODED exactly when the reconciled state was ENCODED and
the checked step redset_recover succeeds — the shuffile_migrate result is
not consulted; REMOVE never writes ENCODED. -/
theorem c1_corrupt_then_encoded (enc : EncodeEnv) (filenames : List String)
    (reb : RebuildEnv) (rem : RemoveEnv) :
    corruptBeforeMutation (er_encode enc filenames).2 = true ∧
    corruptBeforeMutation (er_rebuild reb).2 = true ∧
    corruptBeforeMutation (er_remove rem).2 = true ∧
    (Event.stateWrite ER_STATE_ENCODED ∈ (er_encode enc filenames).2 ↔
      enc.applyOk = true ∧ enc.createOk = true) ∧
    (Event.stateWrite ER_STATE_ENCODED ∈ (er_rebuild reb).2 ↔
      reb.readState = ER_STATE_ENCODED ∧ reb.recoverOk = true) ∧
    Event.stateWrite ER_STATE_ENCODED ∉ (er_remove rem).2 := by
  obtain ⟨a, c⟩ := enc
  obtain ⟨st, m, r⟩ := reb
  refine ⟨?_, ?_, ?_, ?_, ?_, ?_⟩
  · cases a <;> cases c <;>
      simp [er_encode, corruptBeforeMutation, mutatesData,
        ER_SUCCESS, ER_FAILURE, ER_STATE_CORRUPT, ER_STATE_ENCODED]
  · by_cases hst : st = 2 <;> cases r <;>
      simp [er_rebuild, corruptBeforeMutation, mutatesData, hst,
        ER_SUCCESS, ER_FAILURE, ER_STATE_CORRUPT, ER_STATE_ENCODED]
  · simp [er_remove, corruptBeforeMutation, mutatesData,
      ER_STATE_CORRUPT]
  · cases a <;> cases c <;>
      simp [er_encode, ER_SUCCESS, ER_FAILURE, ER_STATE_CORRUPT, ER_STATE_ENCODED]
  · by_cases hst : st = 2 <;> cases r <;>
      simp [er_rebuild, hst, ER_SUCCESS, ER_FAILURE,
        ER_STATE_CORRUPT, ER_STATE_ENCODED]
  · simp [er_remove, ER_STATE_CORRUPT, ER_STATE_ENCODED]

/-- C1 counterexample: in a REBUILD dispatch whose shuffile_migrate fails
collectively (migrate oracle false) while redset_recover succeeds, the
pipeline still advances the state to ENCODED and reports success, because
er.c line 456 discards shuffile_migrate's return value.  This refutes the
claim that ENCODED is written only after every collaborator step of the
pipeline has reported success. -/
theorem c1_migrate_failure_still_encoded :
    (⟨ER_STATE_ENCODED, false, true⟩ : RebuildEnv).migrateOk = false ∧
    Event.shuffileMigrate ∈ (er_rebuild ⟨ER_STATE_ENCODED, false, true⟩).2 ∧
    Event.stateWrite ER_STATE_ENCODED ∈ (er_rebuild ⟨ER_STATE_ENCODED, false, true⟩).2 ∧
    (er_rebuild ⟨ER_STATE_ENCODED, false, true⟩).1 = ER_SUCCESS := by
  decide

/-- C4: a REBUILD dispatch whose reconciled state is not ENCODED fails
immediately: the whole observable behavior is the state read, with no
state-file write, no shuffile_migrate and no redset_recover. -/
theorem c4_rebuild_refuses_unencoded (env : DispatchEnv) (s : ERState)
    (set_id : Int) (sr : ERSetRec)
    (h1 : setsLookup s.er_sets set_id = some sr)
    (h2 : sr.direction = ER_DIRECTION_REBUILD)
    (h3 : env.reb.readState ≠ ER_STATE_ENCODED) :
    ER_Dispatch env s set_id = (ER_FAILURE, [Event.stateRead env.reb.readState]) ∧
    (∀ st, Event.stateWrite st ∉ (ER_Dispatch env s set_id).2) ∧
    Event.shuffileMigrate ∉ (ER_Dispatch env s set_id).2 ∧
    Event.redsetRecover ∉ (ER_Dispatch env s set_id).2 := by
  have hd : ER_Dispatch env s set_id = er_rebuild env.reb := by
    simp [ER_Dispatch, h1, h2, ER_DIRECTION_REBUILD, ER_DIRECTION_ENCODE]
  have hr : er_rebuild env.reb = (ER_FAILURE, [Event.stateRead env.reb.readState]) := by
    simp [er_rebuild, h3]
  rw [hd, hr]
  simp

/-- Witness for c4_rebuild_refuses_unencoded: a concrete REBUILD set whose
replica reads CORRUPT. -/
theorem c4_witness :
    ER_Dispatch
      ⟨⟨true, true⟩, ⟨ER_STATE_CORRUPT, true, true⟩, ⟨true, true, true⟩⟩
      (ER_Create (some "ckpt") ER_DIRECTION_REBUILD 0 erInitState).2 1 =
      (ER_FAILURE, [Event.stateRead ER_STATE_CORRUPT]) :=
  (c4_rebuild_refuses_unencoded
    ⟨⟨true, true⟩, ⟨ER_STATE_CORRUPT, true, true⟩, ⟨true, true, true⟩⟩
    (ER_Create (some "ckpt") ER_DIRECTION_REBUILD 0 erInitState).2 1
    ⟨"ckpt", ER_DIRECTION_REBUILD, none, []⟩
    (by decide) (by decide) (by decide)).1

/-- C5 counterexample: when redset_apply fails collectively (apply oracle
false, shuffile_create succeeding), er_encode does return FAIL, but the
subsequent steps still execute: the redundancy file list is queried and
shuffile_create is invoked (er.c lines 390-412 run unconditionally).  This
refutes the claim that the pipeline stops before the shuffle collaborator's
create. -/
theorem c5_apply_failure_still_creates :
    (er_encode ⟨false, true⟩ []).1 = ER_FAILURE ∧
    Event.shuffileCreate ∈ (er_encode ⟨false, true⟩ []).2 ∧
    Event.filelistGet ∈ (er_encode ⟨false, true⟩ []).2 := by
  decide

/-- C5 (amended): when redset_apply fails, er_encode returns FAIL and the
state file is left at CORRUPT (the ENCODED write is skipped), but the
remaining steps — the file-list query and shuffile_create — still execute,
whatever shuffile_create returns. -/
theorem c5_apply_failure_behavior (createOk : Bool) (filenames : List String) :
    er_encode ⟨false, createOk⟩ filenames =
      (ER_FAILURE,
       [Event.stateWrite ER_STATE_CORRUPT, Event.redsetApply filenames,
        Event.filelistGet, Event.shuffileCreate]) := by
  cases createOk <;> simp [er_encode, ER_SUCCESS, ER_FAILURE]

/-- C6 counterexample: a REMOVE dispatch whose shuffile_remove fails
collectively (remove oracle false) still returns ER_SUCCESS, because
er_remove discards every collaborator result (er.c lines 503-510), and it
unlinks the state file rather than leaving it at CORRUPT.  This refutes the
claim that any collaborator failure surfaces as FAIL on every Dispatch. -/
theorem c6_remove_ignores_failures :
    (ER_Dispatch
        ⟨⟨true, true⟩, ⟨ER_STATE_ENCODED, true, true⟩, ⟨false, true, true⟩⟩
        (ER_Create (some "ckpt") ER_DIRECTION_REMOVE 0 erInitState).2 1).1 =
      ER_SUCCESS ∧
    Event.unlinkStateFile ∈
      (ER_Dispatch
        ⟨⟨true, true⟩, ⟨ER_STATE_ENCODED, true, true⟩, ⟨false, true, true⟩⟩
        (ER_Create (some "ckpt") ER_DIRECTION_REMOVE 0 erInitState).2 1).2 ∧
    ER_SUCCESS ≠ ER_FAILURE := by
  decide

/-- C6 (amended): for ENCODE, failure of redset_apply or shuffile_create
yields FAIL with the state file left at CORRUPT; for REBUILD (entered with
state ENCODED), failure of redset_recover yields FAIL with the state left
at CORRUPT, while the shuffile_migrate result is ignored; REMOVE ignores
all collaborator results: it always returns success and ends by unlinking
the state file. -/
theorem c6_collaborator_failure_behavior (a c : Bool) (filenames : List String)
    (m r : Bool) (rem : RemoveEnv) :
    (er_encode ⟨a, c⟩ filenames).1 =
      (if a && c then ER_SUCCESS else ER_FAILURE) ∧
    lastStateWrite (er_encode ⟨a, c⟩ filenames).2 =
      some (if a && c then ER_STATE_ENCODED else ER_STATE_CORRUPT) ∧
    (er_rebuild ⟨ER_STATE_ENCODED, m, r⟩).1 =
      (if r then ER_SUCCESS else ER_FAILURE) ∧
    lastStateWrite (er_rebuild ⟨ER_STATE_ENCODED, m, r⟩).2 =
      some (if r then ER_STATE_ENCODED else ER_STATE_CORRUPT) ∧
    (er_remove rem).1 = ER_SUCCESS ∧
    Event.unlinkStateFile ∈ (er_remove rem).2 := by
  refine ⟨?_, ?_, ?_, ?_, ?_, ?_⟩
  · cases a <;> cases c <;> simp [er_encode, ER_SUCCESS, ER_FAILURE]
  · cases a <;> cases c <;>
      simp [er_encode, lastStateWrite, ER_SUCCESS, ER_FAILURE,
        ER_STATE_CORRUPT, ER_STATE_ENCODED]
  · cases r <;> simp [er_rebuild, ER_SUCCESS, ER_FAILURE, ER_STATE_ENCODED]
  · cases r <;>
      simp [er_rebuild, lastStateWrite, ER_SUCCESS, ER_FAILURE,
        ER_STATE_CORRUPT, ER_STATE_ENCODED]
  · simp [er_remove, ER_SUCCESS]
  · simp [er_remove]

/-- C3: at the failing inputs — encoding_blocks < 1, or an unsupported
(D, E) pair — ER_Create_Scheme returns ER_FAILURE, whose value 1 collides
with the first valid scheme id, instead of the sentinel -1 that the spec
and the function's own comment ("return scheme id to caller, -1 if error",
er.c line 231) promise: the early returns at er.c lines 199 and 209 are
`return ER_FAILURE`. -/
theorem c3_invalid_params_return_one :
    (ER_Create_Scheme true 0 0 erInitState).1 = ER_FAILURE ∧
    (ER_Create_Scheme true 5 3 erInitState).1 = ER_FAILURE ∧
    (ER_FAILURE : Int) = 1 ∧ (ER_FAILURE : Int) ≠ -1 ∧
    (ER_Create_Scheme true 1 0 erInitState).1 = 1 := by
  decide

/-- C7 counterexample: create a scheme, call ER_Finalize (collaborator
shutdowns succeeding) — it returns FAIL as claimed, but it has deleted both
registries (kvtree_delete at er.c lines 171-172), so the subsequent
ER_Free_Scheme of the live handle returns FAIL instead of succeeding.  This
refutes the claimed FreeScheme-then-Finalize recovery sequence. -/
theorem c7_free_after_failed_finalize_fails :
    (ER_Create_Scheme true 1 0 erInitState).1 = 1 ∧
    (ER_Finalize true true (ER_Create_Scheme true 1 0 erInitState).2).rc = ER_FAILURE ∧
    (ER_Free_Scheme true 1
        (ER_Finalize true true (ER_Create_Scheme true 1 0 erInitState).2).state).1 =
      ER_FAILURE ∧
    ER_FAILURE ≠ ER_SUCCESS := by
  decide

/-- C7 (amended): ER_Finalize with a live scheme or set returns FAIL, emits
a diagnostic, and still shuts down both collaborators — but it also deletes
both registries.  A subsequent ER_Free_Scheme of any id therefore returns
FAIL (ER_Free of a set still reports success), and a second ER_Finalize
(collaborators succeeding) returns success because the registries are
gone. -/
theorem c7_finalize_live_handles (s : ERState)
    (h : 0 < schemesSize s.er_schemes ∨ 0 < setsSize s.er_sets) :
    (ER_Finalize true true s).rc = ER_FAILURE ∧
    (ER_Finalize true true s).diags ≠ [] ∧
    FinalizeCall.shuffileFinalizeCall ∈ (ER_Finalize true true s).calls ∧
    FinalizeCall.redsetFinalizeCall ∈ (ER_Finalize true true s).calls ∧
    (ER_Finalize true true s).state.er_schemes = none ∧
    (ER_Finalize true true s).state.er_sets = none ∧
    (∀ deleteOk id,
      (ER_Free_Scheme deleteOk id (ER_Finalize true true s).state).1 = ER_FAILURE) ∧
    (∀ id, (ER_Free id (ER_Finalize true true s).state).1 = ER_SUCCESS) ∧
    (ER_Finalize true true (ER_Finalize true true s).state).rc = ER_SUCCESS := by
  have hsch : schemesSize (none : Option (List Int)) = 0 := rfl
  have hset : setsSize (none : Option (List (Int × ERSetRec))) = 0 := rfl
  by_cases h1 : 0 < schemesSize s.er_schemes <;>
    by_cases h2 : 0 < setsSize s.er_sets <;>
      simp [ER_Finalize, ER_Free_Scheme, ER_Free, schemeMem, h1, h2, hsch, hset,
        ER_SUCCESS, ER_FAILURE] <;>
      tauto

/-- Witness for c7_finalize_live_handles: the state holding one live
scheme. -/
theorem c7_witness :
    (ER_Finalize true true (ER_Create_Scheme true 1 0 erInitState).2).rc =
      ER_FAILURE :=
  (c7_finalize_live_handles (ER_Create_Scheme true 1 0 erInitState).2
    (by decide)).1

/-- C9 counterexample: adding the same path twice to a set returns OK both
times but records the path once — kvtree_set_kv (er.c line 351) inserts the
path as a key of the FILE hash, and keys are unique — so the file list is
["a"], not the claimed previous-list-with-path-appended ["a", "a"]. -/
theorem c9_duplicate_add_collapses :
    (ER_Add 1 (some "a")
        (ER_Add 1 (some "a")
          (ER_Create (some "ckpt") ER_DIRECTION_REBUILD 0 erInitState).2).2).1 =
      ER_SUCCESS ∧
    Option.map ERSetRec.files
        (setsLookup
          (ER_Add 1 (some "a")
            (ER_Add 1 (some "a")
              (ER_Create (some "ckpt") ER_DIRECTION_REBUILD 0 erInitState).2).2).2.er_sets
          1) = some ["a"] ∧
    some ["a"] ≠ some ["a", "a"] := by
  decide

/-- C9 (amended): ER_Add with a NULL or empty path returns FAIL and leaves
the state unchanged, as does an unknown set id; for an existing set and
non-empty path it returns OK and inserts the path as a key of the set's
FILE hash — appended when fresh, left in place when already present, so
distinct paths keep insertion order and duplicates collapse; an ENCODE
dispatch passes exactly the set's recorded file list to redset_apply. -/
theorem c9_add_file_behavior :
    (∀ s set_id, ER_Add set_id none s = (ER_FAILURE, s)) ∧
    (∀ s set_id, ER_Add set_id (some "") s = (ER_FAILURE, s)) ∧
    (∀ s set_id f, f ≠ "" → setsLookup s.er_sets set_id = none →
      ER_Add set_id (some f) s = (ER_FAILURE, s)) ∧
    (∀ s set_id f sr, f ≠ "" → setsLookup s.er_sets set_id = some sr →
      (ER_Add set_id (some f) s).1 = ER_SUCCESS ∧
      setsLookup (ER_Add set_id (some f) s).2.er_sets set_id =
        some (addFileRec sr f) ∧
      (addFileRec sr f).files =
        (if f ∈ sr.files then sr.files else sr.files ++ [f])) ∧
    (∀ env s set_id sr scheme_id,
      setsLookup s.er_sets set_id = some sr →
      sr.direction = ER_DIRECTION_ENCODE →
      sr.scheme = some scheme_id →
      schemeMem s.er_schemes scheme_id = true →
      Event.redsetApply sr.files ∈ (ER_Dispatch env s set_id).2) := by
  refine ⟨?_, ?_, ?_, ?_, ?_⟩
  · intro s set_id; rfl
  · intro s set_id; simp [ER_Add]
  · intro s set_id f hf hl; simp [ER_Add, hf, hl]
  · intro s set_id f sr hf hl
    refine ⟨?_, ?_, ?_⟩
    · simp [ER_Add, hf, hl]
    · simpa [ER_Add, hf, hl] using
        setsLookup_update s.er_sets set_id sr (addFileRec sr f) hl
    · rfl
  · intro env s set_id sr scheme_id hl hdir hsch hmem
    obtain ⟨⟨a, c⟩, reb, rem⟩ := env
    simp only [ER_Dispatch, hl, hdir, hsch, hmem, if_true, ite_true]
    cases a <;> cases c <;> simp [er_encode, ER_SUCCESS, ER_FAILURE]

/-- Witness for c9_add_file_behavior: adding "a" to a freshly created
set. -/
theorem c9_witness :
    (ER_Add 1 (some "a")
        (ER_Create (some "ckpt") ER_DIRECTION_REBUILD 0 erInitState).2).1 =
      ER_SUCCESS :=
  (c9_add_file_behavior.2.2.2.1
    (ER_Create (some "ckpt") ER_DIRECTION_REBUILD 0 erInitState).2 1 "a"
    ⟨"ckpt", ER_DIRECTION_REBUILD, none, []⟩
    (by decide) (by decide)).1

/-- C10: ER_Free returns success for every set id — including one never
created or already freed — and afterwards no record for the id remains in
the set registry; ER_Free_Scheme by contrast fails on an unregistered
scheme id (and otherwise reports redset_delete's result). -/
theorem c10_free_set_always_succeeds (s : ERState) (id : Int) (deleteOk : Bool) :
    (ER_Free id s).1 = ER_SUCCESS ∧
    setsLookup (ER_Free id s).2.er_sets id = none ∧
    (ER_Free_Scheme deleteOk id s).1 =
      (if schemeMem s.er_schemes id then
        (if deleteOk then ER_SUCCESS else ER_FAILURE)
       else ER_FAILURE) := by
  refine ⟨rfl, ?_, ?_⟩
  · simpa [ER_Free] using setsLookup_remove s.er_sets id
  · simp only [ER_Free_Scheme]
    split <;> rfl

/-- C2: er_state_read returns the local value held by the lowest world rank
whose local value is non-NULL — each leader's value read from its replica,
NULL when the file is absent or unreadable, NULL on non-leaders — and NULL
when no rank holds a non-NULL value (er_state_read_spec is that election,
worded as in the spec). -/
theorem c2_state_read_lowest_nonnull (locals : List Nat) :
    er_state_read locals = er_state_read_spec locals := by
  unfold er_state_read
  rcases er_allreduce_min_char locals.length locals 0 (by omega) with
    ⟨h1, h2⟩ | ⟨i, hi, heq, hget, hne⟩
  · simp [h1, h2]
  · rw [heq]
    simpa [hi] using hget

theorem er_encoding_type_isSome (d e : Int) (he : e = 0 ∨ d = e ∨ e = 1) :
    ∃ t, er_encoding_type d e = some t := by
  unfold er_encoding_type
  by_cases h0 : e = 0
  · exact ⟨RedsetCopyType.copySingle, by simp [h0]⟩
  · by_cases h1 : d = e
    · exact ⟨RedsetCopyType.copyPartner, by simp [h0, h1]⟩
    · by_cases h2 : e = 1
      · exact ⟨RedsetCopyType.copyXor, by rw [if_neg h0, if_neg h1, if_pos h2]⟩
      · tauto

theorem erStep_counters_mono (s : ERState) (op : EROp) :
    s.er_scheme_counter ≤ (erStep s op).2.er_scheme_counter ∧
    s.er_set_counter ≤ (erStep s op).2.er_set_counter := by
  cases op with
  | createScheme ok d e =>
    simp only [erStep, ER_Create_Scheme]
    split
    · exact ⟨le_refl _, le_refl _⟩
    · split
      · exact ⟨le_refl _, le_refl _⟩
      · split
        · refine ⟨?_, ?_⟩ <;> simp
        · exact ⟨le_refl _, le_refl _⟩
  | freeScheme ok sid =>
    simp only [erStep, ER_Free_Scheme]
    split <;> exact ⟨le_refl _, le_refl _⟩
  | createSet nm dir sid =>
    simp only [erStep, ER_Create]
    split
    · exact ⟨le_refl _, le_refl _⟩
    · split
      · exact ⟨le_refl _, le_refl _⟩
      · split
        · exact ⟨le_refl _, le_refl _⟩
        · split
          · refine ⟨?_, ?_⟩ <;> simp
          · refine ⟨?_, ?_⟩ <;> simp
  | addFile sid f =>
    simp only [erStep, ER_Add]
    split
    · exact ⟨le_refl _, le_refl _⟩
    · split
      · exact ⟨le_refl _, le_refl _⟩
      · split <;> exact ⟨le_refl _, le_refl _⟩
  | freeSet sid => exact ⟨le_refl _, le_refl _⟩
  | finalize a b => exact ⟨le_refl _, le_refl _⟩

theorem er_create_scheme_success (ok : Bool) (d e : Int) (s : ERState)
    (h : schemeCreateSucceeds ok d e = true) :
    (ER_Create_Scheme ok d e s).1 = s.er_scheme_counter + 1 ∧
    (ER_Create_Scheme ok d e s).2.er_scheme_counter = s.er_scheme_counter + 1 := by
  simp only [schemeCreateSucceeds, Bool.and_eq_true, decide_eq_true_eq] at h
  obtain ⟨⟨hok, hd⟩, he⟩ := h
  subst hok
  obtain ⟨t, ht⟩ := er_encoding_type_isSome d e he
  simp [ER_Create_Scheme, ht, show ¬ d < 1 by omega]

theorem er_create_set_success (nm : Option String) (dir sid : Int) (s : ERState)
    (h : setCreateSucceeds s nm dir sid = true) :
    (ER_Create nm dir sid s).1 = s.er_set_counter + 1 ∧
    (ER_Create nm dir sid s).2.er_set_counter = s.er_set_counter + 1 := by
  match nm with
  | none => simp [setCreateSucceeds] at h
  | some n =>
    simp only [setCreateSucceeds, Bool.and_eq_true, Bool.or_eq_true,
      decide_eq_true_eq] at h
    obtain ⟨⟨hn, hdir⟩, henc⟩ := h
    simp only [ER_Create]
    rw [if_neg hn]
    rw [if_neg (by tauto)]
    rw [if_neg ?_]
    · simp
    · rintro ⟨hd, hmem⟩
      rcases henc with hne | hm
      · exact hne hd
      · rw [show ({ s with
            er_set_counter := s.er_set_counter + 1,
            er_sets := setsInsert s.er_sets (s.er_set_counter + 1)
              { name := n, direction := dir,
                scheme := if dir = ER_DIRECTION_ENCODE then some sid else none,
                files := [] } } : ERState).er_schemes = s.er_schemes from rfl] at hmem
        rw [hm] at hmem
        exact Bool.noConfusion hmem

theorem successfulSchemeIds_lt (ops : List EROp) :
    ∀ s : ERState, ∀ j ∈ successfulSchemeIds s ops, s.er_scheme_counter < j := by
  induction ops with
  | nil => intro s j hj; simp [successfulSchemeIds] at hj
  | cons op rest ih =>
    intro s j hj
    have hmono := (erStep_counters_mono s op).1
    have htail : ∀ k ∈ successfulSchemeIds (erStep s op).2 rest,
        s.er_scheme_counter < k := by
      intro k hk
      have := ih (erStep s op).2 k hk
      omega
    cases op with
    | createScheme ok d e =>
      by_cases hs : schemeCreateSucceeds ok d e = true
      · simp only [successfulSchemeIds, if_pos hs, List.mem_cons] at hj
        rcases hj with rfl | hj
        · have hsucc := (er_create_scheme_success ok d e s hs).1
          simp only [erStep]
          omega
        · exact htail j hj
      · simp only [successfulSchemeIds, if_neg hs] at hj
        exact htail j hj
    | freeScheme ok sid =>
      simp only [successfulSchemeIds] at hj; exact htail j hj
    | createSet nm dir sid =>
      simp only [successfulSchemeIds] at hj; exact htail j hj
    | addFile sid f =>
      simp only [successfulSchemeIds] at hj; exact htail j hj
    | freeSet sid =>
      simp only [successfulSchemeIds] at hj; exact htail j hj
    | finalize a b =>
      simp only [successfulSchemeIds] at hj; exact htail j hj

theorem successfulSchemeIds_pairwise (ops : List EROp) :
    ∀ s : ERState, List.Pairwise (· < ·) (successfulSchemeIds s ops) := by
  induction ops with
  | nil => intro s; simp [successfulSchemeIds]
  | cons op rest ih =>
    intro s
    cases op with
    | createScheme ok d e =>
      by_cases hs : schemeCreateSucceeds ok d e = true
      · simp only [successfulSchemeIds, if_pos hs]
        refine List.Pairwise.cons ?_ (ih _)
        intro k hk
        have h1 := successfulSchemeIds_lt rest (erStep s (EROp.createScheme ok d e)).2 k hk
        have h2 := (er_create_scheme_success ok d e s hs).1
        have h3 := (er_create_scheme_success ok d e s hs).2
        simp only [erStep] at *
        omega
      · simp only [successfulSchemeIds, if_neg hs]; exact ih _
    | freeScheme ok sid => simp only [successfulSchemeIds]; exact ih _
    | createSet nm dir sid => simp only [successfulSchemeIds]; exact ih _
    | addFile sid f => simp only [successfulSchemeIds]; exact ih _
    | freeSet sid => simp only [successfulSchemeIds]; exact ih _
    | finalize a b => simp only [successfulSchemeIds]; exact ih _

theorem successfulSetIds_lt (ops : List EROp) :
    ∀ s : ERState, ∀ j ∈ successfulSetIds s ops, s.er_set_counter < j := by
  induction ops with
  | nil => intro s j hj; simp [successfulSetIds] at hj
  | cons op rest ih =>
    intro s j hj
    have hmono := (erStep_counters_mono s op).2
    have htail : ∀ k ∈ successfulSetIds (erStep s op).2 rest,
        s.er_set_counter < k := by
      intro k hk
      have := ih (erStep s op).2 k hk
      omega
    cases op with
    | createScheme ok d e =>
      simp only [successfulSetIds] at hj; exact htail j hj
    | freeScheme ok sid =>
      simp only [successfulSetIds] at hj; exact htail j hj
    | createSet nm dir sid =>
      by_cases hs : setCreateSucceeds s nm dir sid = true
      · simp only [successfulSetIds, if_pos hs, List.mem_cons] at hj
        rcases hj with rfl | hj
        · have hsucc := (er_create_set_success nm dir sid s hs).1
          simp only [erStep]
          omega
        · exact htail j hj
      · simp only [successfulSetIds, if_neg hs] at hj
        exact htail j hj
    | addFile sid f =>
      simp only [successfulSetIds] at hj; exact htail j hj
    | freeSet sid =>
      simp only [successfulSetIds] at hj; exact htail j hj
    | finalize a b =>
      simp only [successfulSetIds] at hj; exact htail j hj

theorem successfulSetIds_pairwise (ops : List EROp) :
    ∀ s : ERState, List.Pairwise (· < ·) (successfulSetIds s ops) := by
  induction ops with
  | nil => intro s; simp [successfulSetIds]
  | cons op rest ih =>
    intro s
    cases op with
    | createScheme ok d e => simp only [successfulSetIds]; exact ih _
    | freeScheme ok sid => simp only [successfulSetIds]; exact ih _
    | createSet nm dir sid =>
      by_cases hs : setCreateSucceeds s nm dir sid = true
      · simp only [successfulSetIds, if_pos hs]
        refine List.Pairwise.cons ?_ (ih _)
        intro k hk
        have h1 := successfulSetIds_lt rest (erStep s (EROp.createSet nm dir sid)).2 k hk
        have h2 := (er_create_set_success nm dir sid s hs).1
        have h3 := (er_create_set_success nm dir sid s hs).2
        simp only [erStep] at *
        omega
      · simp only [successfulSetIds, if_neg hs]; exact ih _
    | addFile sid f => simp only [successfulSetIds]; exact ih _
    | freeSet sid => simp only [successfulSetIds]; exact ih _
    | finalize a b => simp only [successfulSetIds]; exact ih _

/-- C8: over any sequence of API calls from the initial state, the ids
returned by successful ER_Create_Scheme calls, with 0 in front, are
strictly increasing — hence every returned scheme id is an integer ≥ 1,
each is strictly greater than every id previously returned by that
registry, and none is ever reused, even across failed calls, frees and
finalization; the same holds for the set ids returned by successful
ER_Create calls. -/
theorem c8_ids_monotonic (ops : List EROp) :
    List.Pairwise (· < ·) ((0 : Int) :: successfulSchemeIds erInitState ops) ∧
    List.Pairwise (· < ·) ((0 : Int) :: successfulSetIds erInitState ops) := by
  constructor
  · refine List.Pairwise.cons ?_ (successfulSchemeIds_pairwise ops erInitState)
    intro k hk
    have := successfulSchemeIds_lt ops erInitState k hk
    simpa [erInitState] using this
  · refine List.Pairwise.cons ?_ (successfulSetIds_pairwise ops erInitState)
    intro k hk
    have := successfulSetIds_lt ops erInitState k hk
    simpa [erInitState] using this
